import Mathlib

/-!
# k8s-setup-test-go-app: the greeter service

A verification development for `k8s-setup-test-go-app/main.go`:

```go
func handler(w http.ResponseWriter, r *http.Request) {
    hostname, _ := os.Hostname()
    fmt.Fprintf(w, "Hello from Pod: %s\n", hostname)
}

func main() {
    http.HandleFunc("/", handler)
    http.ListenAndServe(":8080", nil)
}
```

The two functions of the program are embedded as `handler` and `main`.
What they call in the Go standard library (`os.Hostname`, `fmt.Fprintf`,
`http.ResponseWriter`, `http.HandleFunc`, `http.ListenAndServe` with the
default `ServeMux`) is not part of the repository; it is modelled below,
each definition saying which library behaviour it stands for and which part
of it is covered.
-/

namespace GreeterApp

/-! ## Go strings -/

/-- A Go string is an immutable sequence of bytes; `len` is `List.length`. -/
abbrev GoString := List UInt8

/-- The bytes of a Go string literal (Go source text is UTF-8). -/
def str (s : String) : GoString := s.toList.flatMap String.utf8EncodeChar

/-! ## `fmt` -/

/-- The byte `%`, which starts a formatting directive. -/
def percent : UInt8 := 37

/-- The rendering of operands left over after the format is used up:
nothing when there is none, else `%!(EXTRA string=a, string=b)`. -/
def extraArgs : List GoString → GoString
  | [] => []
  | a :: rest =>
    str "%!(EXTRA string=" ++ a ++
      (rest.flatMap fun b => str ", string=" ++ b) ++ str ")"

/-- Model of the formatting loop of `fmt` (`doPrintf`) for string operands.
Covered: literal bytes, `%%`, and the verbs `%s` and `%v` without flags,
width, precision or argument index, which write the operand unchanged; a
verb with no operand left writes `%!s(MISSING)`, a lone trailing `%` writes
`%!(NOVERB)`, operands left over are reported by `extraArgs`. Any other byte
after `%` is outside the covered part of the library and gives `none`. -/
def doPrintf : GoString → List GoString → Option GoString
  | [], args => some (extraArgs args)
  | b :: rest, args =>
    if b ≠ percent then
      (doPrintf rest args).map (b :: ·)
    else
      match rest with
      | [] => some (str "%!(NOVERB)" ++ extraArgs args)
      | c :: rest2 =>
        if c = percent then
          (doPrintf rest2 args).map (percent :: ·)
        else if c = 115 ∨ c = 118 then
          match args with
          | [] => (doPrintf rest2 []).map (str "%!" ++ [c] ++ str "(MISSING)" ++ ·)
          | a :: args2 => (doPrintf rest2 args2).map (a ++ ·)
        else
          none

/-! ## `net/http`: the response writer -/

/-- The state of an `http.ResponseWriter` as a handler sees it: whether the
status line has been committed, the status code, and the bytes handed to
`Write` so far. Which of these bytes the library puts on the wire (none for a
`HEAD` request), and the headers it adds by itself, are not modelled. -/
structure ResponseWriter where
  wroteHeader : Bool
  status : Nat
  body : GoString
  deriving DecidableEq, Repr

/-- The writer a handler receives for a new request: nothing committed. -/
def ResponseWriter.fresh : ResponseWriter :=
  { wroteHeader := false, status := 0, body := [] }

/-- The call `w.WriteHeader(code)`: commits the status; a second call is
ignored by the library. -/
def ResponseWriter.WriteHeader (w : ResponseWriter) (code : Nat) : ResponseWriter :=
  if w.wroteHeader then w else { w with wroteHeader := true, status := code }

/-- The call `w.Write(b)`: if the status has not been committed yet it is
committed as 200 (`http.StatusOK`), then the bytes are appended. -/
def ResponseWriter.Write (w : ResponseWriter) (b : GoString) : ResponseWriter :=
  let w1 := if w.wroteHeader then w else w.WriteHeader 200
  { w1 with body := w1.body ++ b }

/-- What the server does when a handler returns: a handler that wrote nothing
gets the status 200 committed for it. -/
def ResponseWriter.finishRequest (w : ResponseWriter) : ResponseWriter :=
  if w.wroteHeader then w else w.WriteHeader 200

/-- The call `fmt.Fprintf(w, format, args...)`: formats into a buffer and
hands the buffer to `w.Write` in one call. -/
def Fprintf (w : ResponseWriter) (format : GoString) (args : List GoString) :
    Option ResponseWriter :=
  (doPrintf format args).map w.Write

/-! ## `os.Hostname` -/

/-- What the operating system answers to a host-name query: a name, or an
error number. -/
abbrev KernelHostname := Except Nat GoString

/-- Model of `os.Hostname()`: returns `(name, err)`; on success the name and a
nil error, on failure the empty string and the error (every failing return of
the library function is `return "", err`). -/
def osHostname (k : KernelHostname) : GoString × Option Nat :=
  match k with
  | .ok name => (name, none)
  | .error e => ([], some e)

/-! ## `net/http`: requests -/

/-- An inbound request as a handler is given it (`*http.Request`), after the
server has read and accepted it: the method, the protocol version of the
request line, the request-target as sent (`RequestURI`), the decoded path
(`URL.Path`) and the path as escaped on the wire (`URL.EscapedPath()`), the
query, the host, the header fields other than `Host`, and the body. -/
structure Request where
  method : GoString
  protoMajor : Nat
  protoMinor : Nat
  requestURI : GoString
  path : GoString
  escapedPath : GoString
  rawQuery : GoString
  host : GoString
  header : List (GoString × GoString)
  body : GoString
  deriving DecidableEq, Repr

/-- The method `r.ProtoAtLeast(major, minor)`. -/
def Request.ProtoAtLeast (r : Request) (major minor : Nat) : Bool :=
  decide (major < r.protoMajor) || (r.protoMajor == major && decide (minor ≤ r.protoMinor))

/-! ## The program: `handler` -/

/-- The function `handler` of `main.go`. The host name is looked up, the error
result is dropped, and one `Fprintf` writes the greeting to `w`; `r` is not
used. The first argument is the answer of the operating system at the time of
the call. -/
def handler (k : KernelHostname) (w : ResponseWriter) (_r : Request) :
    Option ResponseWriter :=
  let (hostname, _) := osHostname k
  Fprintf w (str "Hello from Pod: %s\n") [hostname]

/-! ## `path.Clean` and the path cleaning of the mux -/

/-- The byte `/`. -/
def slash : UInt8 := 47

/-- The byte `.`. -/
def dot : UInt8 := 46

/-- The backtracking of `path.Clean` at a `..` element, started after the
first `out.w--` : `for out.w > dotdot && out.index(out.w) != '/' { out.w-- }`.
The argument and the result are the write index. -/
def backtrack (buf : GoString) (dotdot : Nat) : Nat → Nat
  | 0 => 0
  | w + 1 =>
    if dotdot < w + 1 ∧ buf.getD (w + 1) 0 ≠ slash then backtrack buf dotdot w else w + 1

/-- The main loop of `path.Clean`: `p` is the unread rest of the path
(`path[r:]`), `out` the bytes written so far (`buf[:w]`), `dotdot` the index
below which `..` must not backtrack. Every round consumes at least one byte
of `p`, so a first argument of at least `p.length` lets the loop run to its
end (`cleanLoop_fuel`). -/
def cleanLoop (rooted : Bool) : Nat → GoString → GoString → Nat → GoString
  | 0, _, out, _ => out
  | _ + 1, [], out, _ => out
  | fuel + 1, c :: rest, out, dotdot =>
    if c = slash then
      -- empty path element
      cleanLoop rooted fuel rest out dotdot
    else if c = dot ∧ (rest = [] ∨ rest.head? = some slash) then
      -- . element
      cleanLoop rooted fuel rest out dotdot
    else if c = dot ∧ rest.head? = some dot ∧
        (rest.tail = [] ∨ rest.tail.head? = some slash) then
      -- .. element: remove to last /
      if dotdot < out.length then
        cleanLoop rooted fuel rest.tail
          (out.take (backtrack out dotdot (out.length - 1))) dotdot
      else if rooted = false then
        let out2 := (if 0 < out.length then out ++ [slash] else out) ++ [dot, dot]
        cleanLoop rooted fuel rest.tail out2 out2.length
      else
        cleanLoop rooted fuel rest.tail out dotdot
    else
      -- real path element: add slash if needed, copy element
      let out1 :=
        if (rooted = true ∧ out.length ≠ 1) ∨ (rooted = false ∧ out.length ≠ 0)
        then out ++ [slash] else out
      cleanLoop rooted fuel (rest.dropWhile (· ≠ slash))
        (out1 ++ c :: rest.takeWhile (· ≠ slash)) dotdot

/-- Go's `path.Clean`: the shortest path name equivalent to `path` by purely
lexical processing. -/
def Clean (path : GoString) : GoString :=
  match path with
  | [] => str "."
  | c :: rest =>
    let out :=
      if c = slash then cleanLoop true rest.length rest [slash] 1
      else cleanLoop false path.length path [] 0
    if out.length = 0 then str "." else out

/-- The function `cleanPath` of `net/http`: the canonical path for `p`,
eliminating `.` and `..` elements and repeated slashes, keeping a trailing
slash. -/
def cleanPath (p : GoString) : GoString :=
  if p = [] then [slash]
  else
    let p1 := if p.head? ≠ some slash then slash :: p else p
    let np := Clean p1
    if p1.getLast? = some slash ∧ np ≠ [slash] then
      if p1.length = np.length + 1 ∧ np.isPrefixOf p1 = true then p1 else np ++ [slash]
    else np

/-! ## `net/http`: the request multiplexer -/

/-- The type of a handler function; the first argument is the answer the
operating system gives to a host-name query while the handler runs. -/
abbrev HandlerFunc := KernelHostname → ResponseWriter → Request → Option ResponseWriter

/-- One registration of a `ServeMux`. -/
structure muxEntry where
  pattern : GoString
  h : HandlerFunc

/-- Model of `http.ServeMux` for patterns that are plain rooted paths (they
start with `/`, no host, no method, no wildcard): the registrations, in the
order they were made. -/
structure ServeMux where
  entries : List muxEntry

/-- Why a registration does not return. -/
inductive RegError where
  | panic
  | notCovered
  deriving DecidableEq, Repr

/-- Whether `pattern` is registered. -/
def ServeMux.has (mux : ServeMux) (pattern : GoString) : Bool :=
  mux.entries.any fun e => e.pattern == pattern

/-- The call `mux.Handle(pattern, handler)`: panics on the empty pattern and
on a pattern registered before; patterns that are not plain rooted paths are
outside the model. -/
def ServeMux.Handle (mux : ServeMux) (pattern : GoString) (h : HandlerFunc) :
    Except RegError ServeMux :=
  if pattern = [] then .error .panic
  else if pattern.head? ≠ some slash ∨ 123 ∈ pattern then .error .notCovered
  else if mux.has pattern then .error .panic
  else .ok { entries := mux.entries ++ [{ pattern := pattern, h := h }] }

/-- The longest pattern among the candidates (the first one on a tie). -/
def longest : List muxEntry → Option muxEntry
  | [] => none
  | e :: es =>
    match longest es with
    | none => some e
    | some f => if e.pattern.length < f.pattern.length then some f else some e

/-- The matching rule of the mux: an exact match wins; otherwise the longest
registered pattern that ends in `/` and is a beginning of the path. -/
def ServeMux.find (mux : ServeMux) (path : GoString) : Option muxEntry :=
  match mux.entries.find? (fun e => e.pattern == path) with
  | some e => some e
  | none =>
    longest (mux.entries.filter fun e =>
      e.pattern.getLast? == some slash && e.pattern.isPrefixOf path)

/-- Whether the mux redirects `path` to `path/`: `path` itself is not
registered and `path/` is. -/
def ServeMux.shouldRedirect (mux : ServeMux) (path : GoString) : Bool :=
  if mux.has path then false
  else if path.length = 0 then false
  else if mux.has (path ++ [slash]) then path.getLast? != some slash
  else false

/-- The traits of `net/http` that differ between its releases and that
`main.go` does not pin: the status with which the mux redirects to a cleaned
path, always a redirect status (301 `StatusMovedPermanently` in older
releases, 307 `StatusTemporaryRedirect` in newer ones), and whether the mux
matches on the escaped path of the URL (newer releases) or on the decoded
`URL.Path` (older ones). -/
structure Library where
  redirectStatus : Nat
  isRedirect : 300 ≤ redirectStatus ∧ redirectStatus < 400
  escaped : Bool

/-- The path of a request that the mux cleans and matches on. -/
def Library.muxPath (lib : Library) (r : Request) : GoString :=
  if lib.escaped then r.escapedPath else r.path

/-- What the mux decides to do with a request: run a registered handler,
redirect to the URL with path `target` (and the query of the request), or
answer that nothing matches. -/
inductive Route where
  | run (e : muxEntry)
  | redirect (target : GoString)
  | notFound

/-- The method `mux.Handler(r)`: the handler to use for the request. A
`CONNECT` request is matched on its path as it is; for every other method the
path is cleaned first, and a request whose path is not already clean gets a
redirect to the URL `{Path: cleaned path, RawQuery: r.URL.RawQuery}` instead of
a registered handler. Two cases are outside the covered part of the library
and give `none`, because releases differ on them: a `CONNECT` request whose
path does not begin with `/` (the authority form), and the redirect of
`/tree` to a registered `/tree/`. -/
def ServeMux.Handler (mux : ServeMux) (lib : Library) (r : Request) : Option Route :=
  let path := lib.muxPath r
  if r.method = str "CONNECT" then
    if path.head? ≠ some slash then none
    else if mux.shouldRedirect path then none
    else
      match mux.find path with
      | some e => some (.run e)
      | none => some .notFound
  else
    let cleaned := cleanPath path
    if mux.shouldRedirect cleaned then none
    else if cleaned ≠ path then some (.redirect cleaned)
    else
      match mux.find path with
      | some e => some (.run e)
      | none => some .notFound

/-- The reply to one request: what a registered handler wrote (after
`finishRequest`); or a redirect generated by the mux, with its status and the
path and query of the URL it redirects to; or another reply generated by the
library itself, of which only the status code is modelled (404 for no match,
400 for the request-target `*`, 200 for `OPTIONS *`, the error status for a
request refused while it is read). -/
inductive Reply where
  | handled (w : ResponseWriter)
  | redirect (code : Nat) (path rawQuery : GoString)
  | generated (code : Nat)
  deriving DecidableEq, Repr

/-- The status code of a reply. -/
def Reply.status : Reply → Nat
  | .handled w => w.status
  | .redirect code _ _ => code
  | .generated code => code

/-- The method `mux.ServeHTTP(w, r)`: the request-target `*` is answered 400,
every other request is dispatched to the handler chosen by `mux.Handler`; a
redirect is sent with the redirect status of the library. The result is
`none` only when `mux.Handler` or a registered handler leaves the covered
part of the library. -/
def ServeMux.ServeHTTP (mux : ServeMux) (lib : Library) (k : KernelHostname) (r : Request) :
    Option Reply :=
  if r.requestURI = str "*" then some (.generated 400)
  else
    match mux.Handler lib r with
    | none => none
    | some (.run e) => (e.h k ResponseWriter.fresh r).map fun w => .handled w.finishRequest
    | some (.redirect target) => some (.redirect lib.redirectStatus target r.rawQuery)
    | some .notFound => some (.generated 404)

/-- What a server does with a request it has accepted
(`serverHandler.ServeHTTP`): `OPTIONS *` is answered by the library,
everything else goes to the mux. -/
def serverHandler (mux : ServeMux) (lib : Library) (k : KernelHostname) (r : Request) :
    Option Reply :=
  if r.requestURI = str "*" ∧ r.method = str "OPTIONS" then some (.generated 200)
  else mux.ServeHTTP lib k r

/-! ## `net`: listen addresses -/

/-- The byte `:`. -/
def colon : UInt8 := 58

/-- Model of `net.SplitHostPort` for addresses without brackets: the port is
what follows the last colon, the host what precedes it. `none` when there is
no colon or the host contains one (errors of the library), and for the
bracketed form of IPv6 literals, which is not covered. -/
def splitHostPort (hostport : GoString) : Option (GoString × GoString) :=
  let port := (hostport.reverse.takeWhile (· ≠ colon)).reverse
  if port.length = hostport.length then none
  else
    let host := hostport.take (hostport.length - port.length - 1)
    if colon ∈ host ∨ 91 ∈ hostport ∨ 93 ∈ hostport then none
    else some (host, port)

/-- A decimal port number; `none` for anything that is not a non-empty run
of digits (service names are not covered) and for a number above 65535, which
the library refuses. -/
def parsePort (port : GoString) : Option Nat :=
  if port = [] ∨ ∃ b ∈ port, b < 48 ∨ 57 < b then none
  else
    let n := port.foldl (fun n b => 10 * n + (b.toNat - 48)) 0
    if 65535 < n then none else some n

/-- The endpoint a listen address names: the host (empty for every local
interface) and the numeric port. -/
def listenTarget (addr : GoString) : Option (GoString × Nat) :=
  match splitHostPort addr with
  | none => none
  | some (host, port) => (parsePort port).map fun n => (host, n)

/-! ## The process -/

/-- The actions of a process on its surroundings that the claims speak of.
The program performs only the first two. -/
inductive Effect where
  | handleFunc (pattern : GoString)
  | listen (network addr : GoString) (tls : Bool)
  | getenv (key : GoString)
  | readArgs
  | readFile (name : GoString)
  deriving DecidableEq, Repr

/-- Whether an action reads flags, environment variables or configuration. -/
def Effect.readsConfig : Effect → Bool
  | .getenv _ => true
  | .readArgs => true
  | .readFile _ => true
  | _ => false

/-- The address of a bind attempt; `none` for every other action. -/
def Effect.listenAddr : Effect → Option GoString
  | .listen _ addr _ => some addr
  | _ => none

/-- Where a process stands: still running `main`, blocked for good inside the
accept loop of the server, terminated by a return from `main` (exit status 0),
or terminated by a panic (exit status 2). -/
inductive RunState where
  | running
  | serving
  | exited (code : Nat)
  | panicked
  deriving DecidableEq, Repr

/-- A request arriving on a connection: the request as it parses (`req`), the
values of the `Host` header lines as sent, the verdict of the checks of the
library that are not modelled (`fault`: the status with which the library
refuses the request for a malformed request line or header field, an
unsupported protocol version, transfer coding or `Expect`, an oversized
header, ...; `none` when it reports no such fault), and the answer the
operating system gives to a host-name query while the request is handled. -/
structure Arrival where
  req : Request
  hostHeaders : List GoString
  fault : Option Nat
  hostname : KernelHostname

/-- The test `isH2Upgrade` of the server: the preface `PRI * HTTP/2.0`. -/
def Arrival.isH2Upgrade (a : Arrival) : Bool :=
  a.req.method == str "PRI" && a.req.header.isEmpty && a.hostHeaders.isEmpty &&
    a.req.path == str "*" && a.req.protoMajor == 2 && a.req.protoMinor == 0

/-- The reading of a request by the server (`conn.readRequest`): the request
handed on to the handler, or the status of the error reply when the library
refuses it. Modelled checks: more than one `Host` header line is refused, and
so is a request of HTTP/1.1 or later without `Host` header (unless it is
`CONNECT` or the HTTP/2 preface), both with 400. -/
def readRequest (a : Arrival) : Except Nat Request :=
  match a.fault with
  | some code => .error code
  | none =>
    if 1 < a.hostHeaders.length then .error 400
    else if a.req.ProtoAtLeast 1 1 = true ∧ a.hostHeaders = [] ∧ a.isH2Upgrade = false ∧
        a.req.method ≠ str "CONNECT" then .error 400
    else .ok a.req

/-- What the server does with one arrival (`conn.serve`): a request refused
while it is read gets the error reply of the library and reaches no handler;
an accepted request is passed to `serverHandler`. -/
def connServe (mux : ServeMux) (lib : Library) (a : Arrival) : Option Reply :=
  match readRequest a with
  | .error code => some (.generated code)
  | .ok r => serverHandler mux lib a.hostname r

/-- The observable history of a process: the default mux, the actions in
order, the replies sent so far in order, and where the process stands. -/
structure Process where
  defaultServeMux : ServeMux
  trace : List Effect
  replies : List (Option Reply)
  state : RunState

/-- The process when `main` is entered. -/
def Process.start : Process :=
  { defaultServeMux := { entries := [] }, trace := [], replies := [], state := .running }

/-- The surroundings of `net.Listen`: for each address, whether a TCP
listener can be bound to it, or the error number. -/
abbrev Net := GoString → Except Nat Unit

/-- The call `http.HandleFunc(pattern, handler)`: registers the handler on
the default mux. -/
def HandleFunc (pattern : GoString) (h : HandlerFunc) (p : Process) :
    Except RegError Process :=
  match p.defaultServeMux.Handle pattern h with
  | .error e => .error e
  | .ok mux =>
    .ok { p with defaultServeMux := mux, trace := p.trace ++ [.handleFunc pattern] }

/-- The call `http.ListenAndServe(addr, handler)`, in the library `lib`. An
empty address stands for `:http`; a nil handler (`none`) stands for the
default mux. One bind is attempted, without TLS. If it fails the error is
returned at once (second component `some err`) and nothing is served. If it
succeeds the call does not return (second component `none`): the server reads
the requests as they arrive and answers each by `connServe`. -/
def ListenAndServe (lib : Library) (addr : GoString) (handler : Option ServeMux) (net : Net)
    (arrivals : List Arrival) (p : Process) : Process × Option Nat :=
  let addr1 := if addr = [] then str ":http" else addr
  let p1 := { p with trace := p.trace ++ [.listen (str "tcp") addr1 false] }
  match net addr1 with
  | .error err => (p1, some err)
  | .ok _ =>
    let mux := handler.getD p1.defaultServeMux
    ({ p1 with
        replies := p1.replies ++ arrivals.map (connServe mux lib),
        state := .serving },
      none)

/-! ## The program: `main` -/

/-- The function `main` of `main.go`, built with the library `lib` and run in
given surroundings: `net` says whether a listener can be bound, `arrivals` are
the requests that reach the server if it gets to serve. `main` registers
`handler` on `/`, calls `ListenAndServe` on `:8080` with a nil handler and
drops its result; if the call returns, `main` returns and the process ends. -/
def main (lib : Library) (net : Net) (arrivals : List Arrival) : Process :=
  match HandleFunc (str "/") handler Process.start with
  | .error _ => { Process.start with state := .panicked }
  | .ok p1 =>
    match ListenAndServe lib (str ":8080") none net arrivals p1 with
    | (p2, some _) => { p2 with state := .exited 0 }
    | (p2, none) => p2

/-! ## Sample surroundings -/

/-- A library that redirects with 301 and matches on the decoded path. -/
def libMoved : Library :=
  { redirectStatus := 301, isRedirect := by decide, escaped := false }

/-- A library that redirects with 307 and matches on the escaped path. -/
def libTemporary : Library :=
  { redirectStatus := 307, isRedirect := by decide, escaped := true }

/-- A request `GET / HTTP/1.1`. -/
def getRoot : Request :=
  { method := str "GET", protoMajor := 1, protoMinor := 1, requestURI := str "/",
    path := str "/", escapedPath := str "/", rawQuery := [],
    host := str "example.com", header := [], body := [] }

/-- A request `POST /anything?x=1 HTTP/1.1` with a body. -/
def postAnything : Request :=
  { method := str "POST", protoMajor := 1, protoMinor := 1,
    requestURI := str "/anything?x=1", path := str "/anything",
    escapedPath := str "/anything", rawQuery := str "x=1", host := str "example.com",
    header := [(str "Content-Type", str "text/plain")], body := str "payload" }

/-- A request `GET //x?q=1 HTTP/1.1`, whose path is not in canonical form. -/
def getDoubleSlash : Request :=
  { method := str "GET", protoMajor := 1, protoMinor := 1, requestURI := str "//x?q=1",
    path := str "//x", escapedPath := str "//x", rawQuery := str "q=1",
    host := str "example.com", header := [], body := [] }

/-- A request `GET /a/../b HTTP/1.1`, whose path is not in canonical form
either. -/
def getDotDot : Request :=
  { method := str "GET", protoMajor := 1, protoMinor := 1, requestURI := str "/a/../b",
    path := str "/a/../b", escapedPath := str "/a/../b", rawQuery := [],
    host := str "example.com", header := [], body := [] }

/-- A request `GET * HTTP/1.1`. -/
def getStar : Request :=
  { method := str "GET", protoMajor := 1, protoMinor := 1, requestURI := str "*",
    path := str "*", escapedPath := str "*", rawQuery := [],
    host := str "example.com", header := [], body := [] }

/-- A request `OPTIONS * HTTP/1.1`. -/
def optionsStar : Request :=
  { method := str "OPTIONS", protoMajor := 1, protoMinor := 1, requestURI := str "*",
    path := str "*", escapedPath := str "*", rawQuery := [],
    host := str "example.com", header := [], body := [] }

/-- A request `CONNECT //x HTTP/1.1`. -/
def connectDoubleSlash : Request :=
  { method := str "CONNECT", protoMajor := 1, protoMinor := 1, requestURI := str "//x",
    path := str "//x", escapedPath := str "//x", rawQuery := [],
    host := str "example.com", header := [], body := [] }

/-- A request `GET /%2e%2e/x HTTP/1.1`: the escaped path is clean, the decoded
path `/../x` is not. -/
def getEscapedDots : Request :=
  { method := str "GET", protoMajor := 1, protoMinor := 1, requestURI := str "/%2e%2e/x",
    path := str "/../x", escapedPath := str "/%2e%2e/x", rawQuery := [],
    host := str "example.com", header := [], body := [] }

/-- A well-formed arrival: the request came with one `Host` header line, the
library reports no fault, the host name is `myhost`. -/
def arrive (r : Request) : Arrival :=
  { req := r, hostHeaders := [r.host], fault := none, hostname := .ok (str "myhost") }

/-- An arrival `GET / HTTP/1.1` that came without any `Host` header line. -/
def arriveNoHost : Arrival :=
  { req := { getRoot with host := [] }, hostHeaders := [], fault := none,
    hostname := .ok (str "myhost") }

/-- Surroundings in which every bind succeeds. -/
def netFree : Net := fun _ => .ok ()

/-- Surroundings in which every bind fails with `EADDRINUSE` (98). -/
def netBusy : Net := fun _ => .error 98

/-! ## Lemmas on the library model -/

theorem str_format : str "Hello from Pod: %s\n" =
    [72, 101, 108, 108, 111, 32, 102, 114, 111, 109, 32, 80, 111, 100, 58, 32, 37, 115, 10] := by
  decide

theorem str_greeting : str "Hello from Pod: " =
    [72, 101, 108, 108, 111, 32, 102, 114, 111, 109, 32, 80, 111, 100, 58, 32] := by
  decide

theorem str_newline : str "\n" = [10] := by decide

theorem str_root : str "/" = [slash] := by decide

theorem doPrintf_greeting (h : GoString) :
    doPrintf (str "Hello from Pod: %s\n") [h] = some (str "Hello from Pod: " ++ h ++ str "\n") := by
  rw [str_format, str_greeting, str_newline]
  simp [doPrintf, percent, extraArgs]

theorem handler_eq (k : KernelHostname) (w : ResponseWriter) (r : Request) :
    handler k w r = some (w.Write (str "Hello from Pod: " ++ (osHostname k).1 ++ str "\n")) := by
  simp [handler, Fprintf, doPrintf_greeting]

theorem write_fresh (b : GoString) :
    ResponseWriter.fresh.Write b = { wroteHeader := true, status := 200, body := b } := by
  simp [ResponseWriter.Write, ResponseWriter.fresh, ResponseWriter.WriteHeader]

theorem backtrack_ge (buf : GoString) (dotdot : Nat) :
    ∀ w, dotdot ≤ w → dotdot ≤ backtrack buf dotdot w := by
  intro w
  induction w with
  | zero => intro h; simpa [backtrack] using h
  | succ n ih =>
    intro h
    unfold backtrack
    split_ifs with hc
    · exact ih (by omega)
    · exact h

theorem cleanLoop_fuel (rooted : Bool) :
    ∀ (f1 f2 : Nat) (p out : GoString) (dotdot : Nat), p.length ≤ f1 → p.length ≤ f2 →
      cleanLoop rooted f1 p out dotdot = cleanLoop rooted f2 p out dotdot := by
  intro f1
  induction f1 with
  | zero =>
    intro f2 p out dotdot h1 _
    have hp : p = [] := List.length_eq_zero.mp (by omega)
    subst hp
    cases f2 <;> simp [cleanLoop]
  | succ n ih =>
    intro f2 p out dotdot h1 h2
    cases p with
    | nil => cases f2 <;> simp [cleanLoop]
    | cons c rest =>
      cases f2 with
      | zero => simp at h2
      | succ m =>
        simp only [List.length_cons, Nat.add_le_add_iff_right] at h1 h2
        have ht : rest.tail.length ≤ rest.length := by simp
        have hd : (rest.dropWhile (· ≠ slash)).length ≤ rest.length :=
          (List.dropWhile_sublist _).length_le
        simp only [cleanLoop]
        split_ifs
        all_goals first
          | exact ih _ _ _ _ h1 h2
          | exact ih _ _ _ _ (by omega) (by omega)

theorem cleanLoop_head :
    ∀ (fuel : Nat) (p out : GoString), out.head? = some slash →
      (cleanLoop true fuel p out 1).head? = some slash := by
  intro fuel
  induction fuel with
  | zero => intro p out h; simpa [cleanLoop] using h
  | succ n ih =>
    intro p out h
    cases p with
    | nil => simpa [cleanLoop] using h
    | cons c rest =>
      obtain ⟨o, os, rfl⟩ : ∃ o os, out = o :: os := by
        cases out with
        | nil => simp at h
        | cons o os => exact ⟨o, os, rfl⟩
      simp only [List.head?_cons, Option.some.injEq] at h
      subst h
      simp only [cleanLoop]
      split_ifs with h1 h2 h3 h4 h5 h6
      all_goals first
        | exact ih _ _ rfl
        | exact False.elim ‹False›
        | (apply ih; simp; done)
        | skip
      apply ih
      have hb := backtrack_ge (slash :: os) 1 ((slash :: os).length - 1)
        (by simp only [List.length_cons] at h4 ⊢; omega)
      obtain ⟨k, hk⟩ := Nat.exists_eq_add_of_le hb
      rw [hk, Nat.add_comm]
      rfl

theorem Clean_rooted (q : GoString) : (Clean (slash :: q)).head? = some slash := by
  have h := cleanLoop_head q.length q [slash] rfl
  simp only [Clean, if_true]
  split_ifs with h0
  · rw [List.length_eq_zero.mp h0] at h
    simp at h
  · exact h

theorem cleanPath_rooted (q : GoString) :
    (if (slash :: q).getLast? = some slash ∧ Clean (slash :: q) ≠ [slash] then
      if (slash :: q).length = (Clean (slash :: q)).length + 1 ∧
          (Clean (slash :: q)).isPrefixOf (slash :: q) = true
      then slash :: q else Clean (slash :: q) ++ [slash]
    else Clean (slash :: q)).head? = some slash := by
  have hq := Clean_rooted q
  split_ifs
  · rfl
  · cases hc : Clean (slash :: q) with
    | nil => rw [hc] at hq; simp at hq
    | cons a l => rw [hc] at hq; simpa using hq
  · exact hq

theorem cleanPath_head (p : GoString) : (cleanPath p).head? = some slash := by
  unfold cleanPath
  by_cases h0 : p = []
  · rw [if_pos h0]; rfl
  · rw [if_neg h0]
    dsimp only
    by_cases h1 : p.head? = some slash
    · obtain ⟨q, rfl⟩ : ∃ q, p = slash :: q := by
        cases p with
        | nil => exact absurd rfl h0
        | cons a l =>
          simp only [List.head?_cons, Option.some.injEq] at h1
          exact ⟨l, by rw [h1]⟩
      rw [if_neg (not_not.mpr h1)]
      exact cleanPath_rooted q
    · rw [if_pos h1]
      exact cleanPath_rooted p

theorem addr_ne_nil : str ":8080" ≠ [] := by decide

theorem root_shouldRedirect (h : HandlerFunc) (p : GoString) (hp : p.head? = some slash) :
    ServeMux.shouldRedirect { entries := [{ pattern := str "/", h := h }] } p = false := by
  cases p with
  | nil => simp at hp
  | cons a l =>
    simp [ServeMux.shouldRedirect, ServeMux.has, str_root]

theorem root_find (h : HandlerFunc) (p : GoString) (hp : p.head? = some slash) :
    ServeMux.find { entries := [{ pattern := str "/", h := h }] } p =
      some { pattern := str "/", h := h } := by
  cases p with
  | nil => simp at hp
  | cons a l =>
    simp only [List.head?_cons, Option.some.injEq] at hp
    subst hp
    by_cases hl : l = []
    · subst hl
      simp [ServeMux.find, str_root]
    · simp [ServeMux.find, str_root, hl, longest, List.isPrefixOf]

theorem main_bind_ok (lib : Library) (net : Net) (arrivals : List Arrival) (u : Unit)
    (h : net (str ":8080") = .ok u) :
    main lib net arrivals =
      { defaultServeMux := { entries := [{ pattern := str "/", h := handler }] },
        trace := [.handleFunc (str "/"), .listen (str "tcp") (str ":8080") false],
        replies := arrivals.map
          (connServe { entries := [{ pattern := str "/", h := handler }] } lib),
        state := .serving } := by
  have hr : str "/" = [47] := by decide
  simp [main, HandleFunc, ServeMux.Handle, Process.start, ServeMux.has, ListenAndServe,
    if_neg addr_ne_nil, h, hr, slash]

theorem main_bind_error (lib : Library) (net : Net) (arrivals : List Arrival) (err : Nat)
    (h : net (str ":8080") = .error err) :
    main lib net arrivals =
      { defaultServeMux := { entries := [{ pattern := str "/", h := handler }] },
        trace := [.handleFunc (str "/"), .listen (str "tcp") (str ":8080") false],
        replies := [],
        state := .exited 0 } := by
  have hr : str "/" = [47] := by decide
  simp [main, HandleFunc, ServeMux.Handle, Process.start, ServeMux.has, ListenAndServe,
    if_neg addr_ne_nil, h, hr, slash]

theorem main_mux (lib : Library) (net : Net) (arrivals : List Arrival) :
    (main lib net arrivals).defaultServeMux =
      { entries := [{ pattern := str "/", h := handler }] } := by
  cases h : net (str ":8080") with
  | error err => rw [main_bind_error lib net arrivals err h]
  | ok u => rw [main_bind_ok lib net arrivals u h]

theorem root_run (lib : Library) (k : KernelHostname) (r : Request)
    (hstar : r.requestURI ≠ str "*") (hhead : (lib.muxPath r).head? = some slash)
    (hc : r.method = str "CONNECT" ∨ cleanPath (lib.muxPath r) = lib.muxPath r) :
    serverHandler { entries := [{ pattern := str "/", h := handler }] } lib k r =
      some (.handled { wroteHeader := true, status := 200,
                       body := str "Hello from Pod: " ++ (osHostname k).1 ++ str "\n" }) := by
  have hfind := root_find handler (lib.muxPath r) hhead
  have hred := root_shouldRedirect handler (lib.muxPath r) hhead
  by_cases hm : r.method = str "CONNECT"
  · simp [serverHandler, ServeMux.ServeHTTP, ServeMux.Handler, hstar, hm, hhead, hred, hfind,
      handler_eq, write_fresh, ResponseWriter.finishRequest]
  · have hcl : cleanPath (lib.muxPath r) = lib.muxPath r := hc.resolve_left hm
    simp [serverHandler, ServeMux.ServeHTTP, ServeMux.Handler, hstar, hm, hcl, hred, hfind,
      handler_eq, write_fresh, ResponseWriter.finishRequest]

theorem root_redirect (lib : Library) (k : KernelHostname) (r : Request)
    (hstar : r.requestURI ≠ str "*") (hm : r.method ≠ str "CONNECT")
    (hc : cleanPath (lib.muxPath r) ≠ lib.muxPath r) :
    serverHandler { entries := [{ pattern := str "/", h := handler }] } lib k r =
      some (.redirect lib.redirectStatus (cleanPath (lib.muxPath r)) r.rawQuery) := by
  have hred := root_shouldRedirect handler _ (cleanPath_head (lib.muxPath r))
  simp [serverHandler, ServeMux.ServeHTTP, ServeMux.Handler, hstar, hm, hc, hred]

/-! ## The claims -/

/-- C1: for every host name `h` that the lookup returns, `handler` hands the
writer, in one write, exactly `Hello from Pod: ` followed by `h` unchanged
followed by one newline, and does nothing else to it; on a new writer the body
is exactly that string (a `%` in the name is not interpreted), and for the host
name `myhost` it is `Hello from Pod: myhost\n`. -/
theorem handler_writes_greeting (h : GoString) (w : ResponseWriter) (r : Request) :
    handler (.ok h) w r = some (w.Write (str "Hello from Pod: " ++ h ++ str "\n")) ∧
    handler (.ok h) ResponseWriter.fresh r =
      some { wroteHeader := true, status := 200,
             body := str "Hello from Pod: " ++ h ++ str "\n" } ∧
    (handler (.ok (str "myhost")) ResponseWriter.fresh r).map (·.body) =
      some (str "Hello from Pod: myhost\n") ∧
    (handler (.ok (str "100%s%d")) ResponseWriter.fresh r).map (·.body) =
      some (str "Hello from Pod: 100%s%d\n") := by
  have h1 := handler_eq (.ok h) w r
  have h2 := handler_eq (.ok h) ResponseWriter.fresh r
  have h3 := handler_eq (.ok (str "myhost")) ResponseWriter.fresh r
  have h4 := handler_eq (.ok (str "100%s%d")) ResponseWriter.fresh r
  rw [write_fresh] at h2 h3 h4
  refine ⟨h1, h2, ?_, ?_⟩
  · rw [h3]; decide
  · rw [h4]; decide

/-- C2: if the host-name lookup fails, `handler` still completes normally: the
error is dropped, the host-name segment is empty, so the body on a new writer
is exactly `Hello from Pod: \n`, and the status is 200. -/
theorem handler_lookup_failure (err : Nat) (r : Request) :
    osHostname (.error err) = ([], some err) ∧
    handler (.error err) ResponseWriter.fresh r =
      some { wroteHeader := true, status := 200, body := str "Hello from Pod: \n" } := by
  have hs : str "Hello from Pod: " ++ (osHostname (.error err)).1 ++ str "\n" =
      str "Hello from Pod: \n" := by
    show str "Hello from Pod: " ++ [] ++ str "\n" = str "Hello from Pod: \n"
    decide
  refine ⟨rfl, ?_⟩
  rw [handler_eq, write_fresh, hs]

/-- C3, as stated, fails: the server set up by `main` does not answer every
request with 200. `GET //x?q=1` and `GET /a/../b` are answered by the mux with
its redirect status (301 in one library, 307 in another) and the cleaned path
`/x` (with the query) or `/b` as redirect URL, without `handler` being run;
`GET *` is answered 400; and a request of HTTP/1.1 without `Host` header is
refused with 400 while it is read. -/
theorem noncanonical_path_is_redirected :
    (main libMoved netFree
        [arrive getDoubleSlash, arrive getDotDot, arrive getStar, arriveNoHost]).replies =
      [some (.redirect 301 (str "/x") (str "q=1")), some (.redirect 301 (str "/b") []),
       some (.generated 400), some (.generated 400)] ∧
    (main libTemporary netFree
        [arrive getDoubleSlash, arrive getDotDot, arrive getStar, arriveNoHost]).replies =
      [some (.redirect 307 (str "/x") (str "q=1")), some (.redirect 307 (str "/b") []),
       some (.generated 400), some (.generated 400)] ∧
    (main libMoved netFree
        [arrive getDoubleSlash, arrive getDotDot, arrive getStar, arriveNoHost]).replies.map
          (Option.map Reply.status) = [some 301, some 301, some 400, some 400] ∧
    (main libTemporary netFree
        [arrive getDoubleSlash, arrive getDotDot, arrive getStar, arriveNoHost]).replies.map
          (Option.map Reply.status) = [some 307, some 307, some 400, some 400] := by
  decide

/-- C3, amended. With the listener bound, the server set up by `main` answers
every arrival by `connServe` with the default mux, on which `handler` is
registered on `/`. For a request `a` that the server reads and accepts,
whatever its method: if its request-target is not `*` and either the method is
`CONNECT` and the path the mux matches on begins with `/`, or the method is
not `CONNECT` and that path is already canonical (`cleanPath` leaves it
unchanged), `handler` answers it with status 200 and the greeting;
`OPTIONS *` is answered 200 by the library; any other request with target `*`
is answered 400; a request with a non-canonical path and a method other than
`CONNECT` is answered with the redirect status of the mux, which is not 200,
and a redirect URL made of the cleaned path and the query of the request. A
request that the library refuses while reading it gets the error status of the
library. `handler` itself never sets a status other than the implicit 200 of
its first write. -/
theorem server_status_canonical (lib : Library) (net : Net) (arrivals : List Arrival)
    (a : Arrival) (hbind : net (str ":8080") = .ok ()) (hread : readRequest a = .ok a.req) :
    (main lib net arrivals).replies =
      arrivals.map (connServe (main lib net arrivals).defaultServeMux lib) ∧
    (a.req.requestURI ≠ str "*" →
      (a.req.method = str "CONNECT" ∧ (lib.muxPath a.req).head? = some slash) ∨
        (a.req.method ≠ str "CONNECT" ∧ cleanPath (lib.muxPath a.req) = lib.muxPath a.req) →
      connServe (main lib net arrivals).defaultServeMux lib a =
        some (.handled { wroteHeader := true, status := 200,
                         body := str "Hello from Pod: " ++ (osHostname a.hostname).1 ++
                           str "\n" })) ∧
    (a.req.requestURI = str "*" → a.req.method = str "OPTIONS" →
      connServe (main lib net arrivals).defaultServeMux lib a = some (.generated 200)) ∧
    (a.req.requestURI = str "*" → a.req.method ≠ str "OPTIONS" →
      connServe (main lib net arrivals).defaultServeMux lib a = some (.generated 400)) ∧
    (a.req.requestURI ≠ str "*" → a.req.method ≠ str "CONNECT" →
      cleanPath (lib.muxPath a.req) ≠ lib.muxPath a.req →
      connServe (main lib net arrivals).defaultServeMux lib a =
          some (.redirect lib.redirectStatus (cleanPath (lib.muxPath a.req)) a.req.rawQuery) ∧
        lib.redirectStatus ≠ 200) ∧
    (∀ (b : Arrival) (code : Nat), readRequest b = .error code →
      connServe (main lib net arrivals).defaultServeMux lib b = some (.generated code)) ∧
    (∀ (k : KernelHostname) (r : Request),
      (handler k ResponseWriter.fresh r).map (·.status) = some 200) ∧
    (∀ (k : KernelHostname) (r : Request) (w : ResponseWriter), w.wroteHeader = true →
      (handler k w r).map (·.status) = some w.status) := by
  have hserve : ∀ mux : ServeMux, connServe mux lib a = serverHandler mux lib a.hostname a.req := by
    intro mux
    simp [connServe, hread]
  refine ⟨?_, ?_, ?_, ?_, ?_, ?_, ?_, ?_⟩
  · rw [main_bind_ok lib net arrivals () hbind]
  · intro hstar hc
    rw [main_mux, hserve]
    rcases hc with ⟨hm, hhead⟩ | ⟨_, hcl⟩
    · exact root_run lib a.hostname a.req hstar hhead (Or.inl hm)
    · exact root_run lib a.hostname a.req hstar (by rw [← hcl]; exact cleanPath_head _)
        (Or.inr hcl)
  · intro hstar hm
    rw [hserve]
    simp [serverHandler, hstar, hm]
  · intro hstar hm
    rw [hserve]
    simp [serverHandler, ServeMux.ServeHTTP, hstar, hm]
  · intro hstar hm hc
    rw [main_mux, hserve]
    exact ⟨root_redirect lib a.hostname a.req hstar hm hc, by have := lib.isRedirect; omega⟩
  · intro b code hb
    simp [connServe, hb]
  · intro k r
    rw [handler_eq, write_fresh]; rfl
  · intro k r w hw
    rw [handler_eq]
    simp [ResponseWriter.Write, hw]

/-- C3, amended, at sample requests with a bound listener: `POST /anything`
and `CONNECT //x` are answered by `handler` with status 200, `OPTIONS *` with
200 by the library, `GET //x?q=1` with a 301 redirect to `/x?q=1`, and
`GET /%2e%2e/x` by `handler` when the mux matches on the escaped path. -/
theorem server_status_canonical_witness :
    netFree (str ":8080") = .ok () ∧
    readRequest (arrive postAnything) = .ok postAnything ∧
    postAnything.requestURI ≠ str "*" ∧
    postAnything.method ≠ str "CONNECT" ∧
    cleanPath (libTemporary.muxPath postAnything) = libTemporary.muxPath postAnything ∧
    connServe (main libTemporary netFree []).defaultServeMux libTemporary (arrive postAnything) =
      some (.handled { wroteHeader := true, status := 200,
                       body := str "Hello from Pod: " ++
                         (osHostname (.ok (str "myhost"))).1 ++ str "\n" }) ∧
    connServe (main libMoved netFree []).defaultServeMux libMoved (arrive connectDoubleSlash) =
      some (.handled { wroteHeader := true, status := 200,
                       body := str "Hello from Pod: " ++
                         (osHostname (.ok (str "myhost"))).1 ++ str "\n" }) ∧
    connServe (main libMoved netFree []).defaultServeMux libMoved (arrive optionsStar) =
      some (.generated 200) ∧
    connServe (main libMoved netFree []).defaultServeMux libMoved (arrive getDoubleSlash) =
      some (.redirect 301 (cleanPath (str "//x")) (str "q=1")) ∧
    connServe (main libTemporary netFree []).defaultServeMux libTemporary
        (arrive getEscapedDots) =
      some (.handled { wroteHeader := true, status := 200,
                       body := str "Hello from Pod: " ++
                         (osHostname (.ok (str "myhost"))).1 ++ str "\n" }) :=
  ⟨rfl, rfl, by decide, by decide, by decide,
    (server_status_canonical libTemporary netFree [] (arrive postAnything) rfl
      rfl).2.1 (by decide) (Or.inr ⟨by decide, by decide⟩),
    (server_status_canonical libMoved netFree [] (arrive connectDoubleSlash) rfl
      rfl).2.1 (by decide) (Or.inl ⟨by decide, by decide⟩),
    (server_status_canonical libMoved netFree [] (arrive optionsStar) rfl
      rfl).2.2.1 (by decide) (by decide),
    ((server_status_canonical libMoved netFree [] (arrive getDoubleSlash) rfl
      rfl).2.2.2.2.1 (by decide) (by decide) (by decide)).1,
    (server_status_canonical libTemporary netFree [] (arrive getEscapedDots) rfl
      rfl).2.1 (by decide) (Or.inr ⟨by decide, by decide⟩)⟩

/-- C4: the response does not depend on the request: for any two requests
handled with the same host-name lookup result on the same writer, `handler`
produces the same writer state, hence the same status and the same body; in
particular `POST /anything` gets the response of `GET /`. -/
theorem handler_ignores_request (k : KernelHostname) (w : ResponseWriter) (r1 r2 : Request) :
    handler k w r1 = handler k w r2 ∧
    (handler k w r1).map (·.status) = (handler k w r2).map (·.status) ∧
    (handler k w r1).map (·.body) = (handler k w r2).map (·.body) ∧
    (handler k w r1).isSome = true ∧
    handler k w postAnything = handler k w getRoot := by
  refine ⟨rfl, rfl, rfl, ?_, rfl⟩
  rw [handler_eq]; rfl

/-- C5: if the listener cannot be bound, `main` ends the process at once, by
returning: no request is answered, the only bind attempt of the run is the one
on `:8080` (no retry, no other port), and the process has exited. -/
theorem bind_failure_is_fatal (lib : Library) (net : Net) (arrivals : List Arrival) (err : Nat)
    (h : net (str ":8080") = .error err) :
    (main lib net arrivals).state = .exited 0 ∧
    (main lib net arrivals).replies = [] ∧
    (main lib net arrivals).trace.filterMap Effect.listenAddr = [str ":8080"] ∧
    (ListenAndServe lib (str ":8080") none net arrivals Process.start).2 = some err := by
  rw [main_bind_error lib net arrivals err h]
  refine ⟨rfl, rfl, rfl, ?_⟩
  simp [ListenAndServe, if_neg addr_ne_nil, h]

/-- C5 at surroundings where port 8080 is in use and one request is waiting. -/
theorem bind_failure_is_fatal_witness :
    netBusy (str ":8080") = .error 98 ∧
    (main libMoved netBusy [arrive getRoot]).state = .exited 0 ∧
    (main libMoved netBusy [arrive getRoot]).replies = [] :=
  ⟨rfl,
    (bind_failure_is_fatal libMoved netBusy [arrive getRoot] 98 rfl).1,
    (bind_failure_is_fatal libMoved netBusy [arrive getRoot] 98 rfl).2.1⟩

/-- C6: in all surroundings `main` performs exactly two actions, in this
order: it registers one handler, `handler`, on the pattern `/`, and it starts
one listener, on the address `:8080`, which names port 8080 on every interface
(empty host), without TLS; none of its actions reads flags, environment
variables or configuration. -/
theorem main_registers_then_listens (lib : Library) (net : Net) (arrivals : List Arrival) :
    (main lib net arrivals).trace =
      [.handleFunc (str "/"), .listen (str "tcp") (str ":8080") false] ∧
    (main lib net arrivals).defaultServeMux.entries.map (·.pattern) = [str "/"] ∧
    (main lib net arrivals).defaultServeMux.entries.map (·.h) = [handler] ∧
    listenTarget (str ":8080") = some ([], 8080) ∧
    (main lib net arrivals).trace.any Effect.readsConfig = false := by
  have ht : listenTarget (str ":8080") = some ([], 8080) := by decide
  cases h : net (str ":8080") with
  | error err => rw [main_bind_error lib net arrivals err h]; exact ⟨rfl, rfl, rfl, ht, rfl⟩
  | ok u => rw [main_bind_ok lib net arrivals u h]; exact ⟨rfl, rfl, rfl, ht, rfl⟩

/-- C8: the body identifies the host name: two lookups that give `handler`
the same body gave it the same host name; the host name is recovered from the
body by dropping its first 16 bytes (`Hello from Pod: `) and its last byte
(the newline); and the body is 17 bytes longer than the host name. -/
theorem body_determines_hostname (k1 k2 : KernelHostname) (r1 r2 : Request) :
    ((handler k1 ResponseWriter.fresh r1).map (·.body) =
        (handler k2 ResponseWriter.fresh r2).map (·.body) →
      (osHostname k1).1 = (osHostname k2).1) ∧
    (handler k1 ResponseWriter.fresh r1).map (fun w => (w.body.drop 16).dropLast) =
      some (osHostname k1).1 ∧
    (handler k1 ResponseWriter.fresh r1).map (fun w => w.body.length) =
      some ((osHostname k1).1.length + 17) ∧
    (str "Hello from Pod: ").length = 16 := by
  have hr : ∀ h : GoString, ((str "Hello from Pod: " ++ h ++ str "\n").drop 16).dropLast = h := by
    intro h
    rw [str_greeting, str_newline]
    simp
  refine ⟨?_, ?_, ?_, by decide⟩
  · intro heq
    rw [handler_eq, handler_eq, write_fresh, write_fresh] at heq
    simp only [Option.map_some', Option.some.injEq] at heq
    have := congrArg (fun b => (b.drop 16).dropLast) heq
    simpa only [hr] using this
  · rw [handler_eq, write_fresh]
    simp only [Option.map_some', hr]
  · rw [handler_eq, write_fresh, str_greeting, str_newline]
    simp

/-- C8 at two lookups that return `myhost`. -/
theorem body_determines_hostname_witness :
    (handler (.ok (str "myhost")) ResponseWriter.fresh getRoot).map (·.body) =
        (handler (.ok (str "myhost")) ResponseWriter.fresh postAnything).map (·.body) ∧
    (osHostname (.ok (str "myhost"))).1 = (osHostname (.ok (str "myhost"))).1 :=
  ⟨rfl,
    (body_determines_hostname (.ok (str "myhost")) (.ok (str "myhost")) getRoot postAnything).1
      rfl⟩

end GreeterApp
